import Mathlib

/-!
Verification of the orbital-propagation core of the NeoGuardian orrery
(`src/components/Orrery/Orrery.jsx`).

JavaScript numbers are embedded as `JsVal`: a finite double becomes `num x`
with `x : ℝ`, while `bad` collapses `NaN`, `Infinity`, `-Infinity` and
non-number values.  Every guard in the source (`typeof v !== 'number'`,
`isNaN(v)`, `!isFinite(v)`) treats those cases identically, so the collapse
is faithful to every code path under study.  Floating-point rounding and
overflow are not modelled: finite arithmetic is exact real arithmetic, and
the only operations that can produce a non-finite result from finite inputs
are division by zero, the square root of a negative number, and a fractional
power of a negative base, exactly the cases the orbital code can hit.
-/

namespace Orrery

noncomputable section

/-- A JavaScript runtime value as the orrery's guards observe it: a finite
number, or `bad` for `NaN`, `±Infinity` and non-number values. -/
inductive JsVal where
  | num (x : ℝ)
  | bad

/-- `typeof v === 'number' && !isNaN(v) && isFinite(v)`. -/
def isNum : JsVal → Bool
  | .num _ => true
  | .bad => false

/-- JavaScript `+` on the embedded values. -/
def jsAdd : JsVal → JsVal → JsVal
  | .num x, .num y => .num (x + y)
  | _, _ => .bad

/-- JavaScript `-` (binary) on the embedded values. -/
def jsSub : JsVal → JsVal → JsVal
  | .num x, .num y => .num (x - y)
  | _, _ => .bad

/-- JavaScript `*` on the embedded values. -/
def jsMul : JsVal → JsVal → JsVal
  | .num x, .num y => .num (x * y)
  | _, _ => .bad

/-- JavaScript `/`: division by zero gives a non-finite result. -/
def jsDiv : JsVal → JsVal → JsVal
  | .num x, .num y => if y = 0 then .bad else .num (x / y)
  | _, _ => .bad

/-- JavaScript unary `-`. -/
def jsNeg : JsVal → JsVal
  | .num x => .num (-x)
  | .bad => .bad

/-- `Math.abs`. -/
def jsAbs : JsVal → JsVal
  | .num x => .num |x|
  | .bad => .bad

/-- `Math.cos`. -/
def jsCos : JsVal → JsVal
  | .num x => .num (Real.cos x)
  | .bad => .bad

/-- `Math.sin`. -/
def jsSin : JsVal → JsVal
  | .num x => .num (Real.sin x)
  | .bad => .bad

/-- `Math.sqrt`: a negative argument gives `NaN`. -/
def jsSqrt : JsVal → JsVal
  | .num x => if x < 0 then .bad else .num (Real.sqrt x)
  | .bad => .bad

/-- `Math.pow(x, 1.5)`: a negative base gives `NaN`; for `x ≥ 0` the value
is `√(x³) = x^1.5`. -/
def jsPow15 : JsVal → JsVal
  | .num x => if x < 0 then .bad else .num (Real.sqrt (x ^ 3))
  | .bad => .bad

/-- Real-valued `atan2`, total as in JavaScript (`Math.atan2(0, 0) = 0`). -/
def atan2R (y x : ℝ) : ℝ :=
  if 0 < x then Real.arctan (y / x)
  else if x < 0 then
    (if 0 ≤ y then Real.arctan (y / x) + Real.pi else Real.arctan (y / x) - Real.pi)
  else
    (if 0 < y then Real.pi / 2 else if y < 0 then -(Real.pi / 2) else 0)

/-- `Math.atan2` on the embedded values. -/
def jsAtan2 : JsVal → JsVal → JsVal
  | .num y, .num x => .num (atan2R y x)
  | _, _ => .bad

/-- Normalisation of an angle to `[0, 2π)`. -/
def jsMod2pi : JsVal → JsVal
  | .num x => .num (x - 2 * Real.pi * (⌊x / (2 * Real.pi)⌋ : ℝ))
  | .bad => .bad

/-- JavaScript `<` against a finite constant: comparisons with `NaN` are
false. -/
def jsLtB : JsVal → ℝ → Bool
  | .num x, c => decide (x < c)
  | .bad, _ => false

/-- A 3-component vector of JavaScript numbers (one row of a transform
matrix, or a position `{x, y, z}`). -/
abbrev Vec3 : Type := JsVal × JsVal × JsVal

/-- `DEG_TO_RAD` (Orrery.jsx line 10). -/
def degToRad : ℝ := Real.pi / 180

/-- `ORBIT_MESH_POINTS` (Orrery.jsx line 12). -/
def ORBIT_MESH_POINTS : ℕ := 192

/-- `TIMESPEEDS` (Orrery.jsx line 29), in days of simulated time per
real-time second. -/
def TIMESPEEDS : List ℝ :=
  [-365, -30, -7, -1, -3600 / 86400, -60 / 86400, -1 / 86400,
   1 / 86400, 60 / 86400, 3600 / 86400, 1, 7, 30, 365]

/-- An orbital-element record as it flows through the component: the five
required Keplerian fields, the optional mean anomaly, the epoch, and the
lazily attached transform matrix.  Field values are JavaScript numbers so
that invalid records are representable; `epoch` is kept as a plain real
(every record in the data files carries a finite epoch). -/
structure OrbitParams where
  a : JsVal
  e : JsVal
  inc : JsVal
  node : JsVal
  peri : JsVal
  ma : JsVal
  epoch : ℝ
  transformMatrix : Option (List Vec3)

/-- `validateOrbitParams` (Orrery.jsx lines 38-69): reject a null record,
reject when any of `a`, `e`, `inc`, `node`, `peri` is not a finite number,
reject `a ≤ 0`, and clamp `e ≥ 1` to `0.999` in the returned copy (a
negative `e` is only warned about and passes through unchanged). -/
def validateOrbitParams : Option OrbitParams → Option OrbitParams
  | none => none
  | some p =>
    match p.a, p.e, p.inc, p.node, p.peri with
    | .num a0, .num e0, .num _, .num _, .num _ =>
      if a0 ≤ 0 then none
      else
        some { p with
          e := .num (if e0 < 0 ∨ 1 ≤ e0 then (if 1 ≤ e0 then 999 / 1000 else e0) else e0) }
    | _, _, _, _, _ => none

/-- `validatePosition` (Orrery.jsx lines 72-83): a position passes iff all
three coordinates are finite numbers. -/
def validatePosition : Vec3 → Option Vec3
  | (.num x, .num y, .num z) => some (.num x, .num y, .num z)
  | _ => none

/-- `ensureTransformMatrix` (Orrery.jsx lines 86-103): if the record already
carries a matrix, return it; otherwise build the three rotation rows from
`inc`, `node`, `peri` and attach them to the record.  The source mutates the
record, modelled here by also returning the updated record. -/
def ensureTransformMatrix (p : OrbitParams) : List Vec3 × OrbitParams :=
  match p.transformMatrix with
  | some m => (m, p)
  | none =>
    let cosNode := jsCos p.node
    let sinNode := jsSin p.node
    let cosPeri := jsCos p.peri
    let sinPeri := jsSin p.peri
    let cosInc := jsCos p.inc
    let sinInc := jsSin p.inc
    let row1 : Vec3 :=
      (jsSub (jsMul cosPeri cosNode) (jsMul (jsMul cosInc sinPeri) sinNode),
       jsSub (jsNeg (jsMul cosNode sinPeri)) (jsMul (jsMul cosInc cosPeri) sinNode),
       jsMul sinInc sinNode)
    let row2 : Vec3 :=
      (jsAdd (jsMul cosPeri sinNode) (jsMul (jsMul cosInc cosNode) sinPeri),
       jsAdd (jsNeg (jsMul sinPeri sinNode)) (jsMul (jsMul cosInc cosPeri) cosNode),
       jsNeg (jsMul sinInc cosNode))
    let row3 : Vec3 :=
      (jsMul sinInc sinPeri, jsMul sinInc cosPeri, cosInc)
    let m := [row1, row2, row3]
    (m, { p with transformMatrix := some m })

/-- The rotation basis exactly as the spec writes it (§4.2 row formulas),
with `I = inc`, `Ω = node`, `ω = peri`. -/
def specTransformRows (inc node peri : ℝ) : List Vec3 :=
  [(.num (Real.cos peri * Real.cos node - Real.cos inc * Real.sin peri * Real.sin node),
    .num (-(Real.cos node) * Real.sin peri - Real.cos inc * Real.cos peri * Real.sin node),
    .num (Real.sin inc * Real.sin node)),
   (.num (Real.cos peri * Real.sin node + Real.cos inc * Real.cos node * Real.sin peri),
    .num (-(Real.sin peri) * Real.sin node + Real.cos inc * Real.cos peri * Real.cos node),
    .num (-(Real.sin inc) * Real.cos node)),
   (.num (Real.sin inc * Real.sin peri),
    .num (Real.sin inc * Real.cos peri),
    .num (Real.cos inc))]

/-- Dot product of one matrix row with the orbit-plane vector `(x, y, z)`. -/
def rowDot (row : Vec3) (x y z : JsVal) : JsVal :=
  jsAdd (jsAdd (jsMul row.1 x) (jsMul row.2.1 y)) (jsMul row.2.2 z)

/-- Modelled from the spec: `getOrbitPosition` lives in `src/utils/orbits.js`,
which is absent from the source snapshot; §4.4 gives its contract.
`r = a(1 − e²)/(1 + e·cos ν)`, orbit-plane coordinates `(r·cos ν, r·sin ν, 0)`,
world position = transform rows applied to that vector.  A zero denominator
produces a non-finite JavaScript number. -/
def getOrbitPosition (a e nu : JsVal) (r1 r2 r3 : Vec3) : Vec3 :=
  let cnu := jsCos nu
  let snu := jsSin nu
  let r := jsDiv (jsMul a (jsSub (.num 1) (jsMul e e))) (jsAdd (.num 1) (jsMul e cnu))
  let x := jsMul r cnu
  let y := jsMul r snu
  let z : JsVal := .num 0
  (rowDot r1 x y z, rowDot r2 x y z, rowDot r3 x y z)

/-- `getOrbitPositionSafe` (Orrery.jsx lines 141-163): return the origin when
`a`, `e` or the true anomaly is not a finite number, when the transform
matrix is missing or not a 3-row array, or when the computed position fails
`validatePosition`; otherwise return the validated position. -/
def getOrbitPositionSafe (a e nu : JsVal) (tm : Option (List Vec3)) : Vec3 :=
  match a, e, nu with
  | .num a0, .num e0, .num n0 =>
    match tm with
    | some [r1, r2, r3] =>
      match validatePosition (getOrbitPosition (.num a0) (.num e0) (.num n0) r1 r2 r3) with
      | some pos => pos
      | none => (.num 0, .num 0, .num 0)
    | _ => (.num 0, .num 0, .num 0)
  | _, _, _ => (.num 0, .num 0, .num 0)

/-- Modelled from the spec: `createOrbit` lives in `src/utils/orbits.js`,
which is absent from the source snapshot; §4.5 gives its contract.  It
builds the transform basis for the record, samples the true anomaly
uniformly over `[0, 2π)` at `points` samples and emits the flat coordinate
array of the sampled positions.  The updated record (with the attached
matrix) is returned alongside, mirroring the source's in-place mutation. -/
def createOrbit (p : OrbitParams) (points : ℕ) : List JsVal × OrbitParams :=
  let mp := ensureTransformMatrix p
  match mp.1 with
  | [r1, r2, r3] =>
    (((List.range points).map (fun k =>
        let nu : JsVal := .num (2 * Real.pi * k / points)
        let pos := getOrbitPosition p.a p.e nu r1 r2 r3
        [pos.1, pos.2.1, pos.2.2])).flatten, mp.2)
  | _ => ([], mp.2)

/-- `createOrbitSafe` (Orrery.jsx lines 106-138): validate the parameters,
build the curve, and reject the whole orbit when any coordinate of the
generated geometry is not a finite number. -/
def createOrbitSafe (p : Option OrbitParams) (points : ℕ) : Option (List JsVal × OrbitParams) :=
  match validateOrbitParams p with
  | none => none
  | some vp =>
    let orb := createOrbit vp points
    if orb.1.all isNum then some orb else none

/-- One Newton step for Kepler's equation `M = E − e·sin E`. -/
def keplerStep (e M E : JsVal) : JsVal :=
  jsSub E (jsDiv (jsSub (jsSub E (jsMul e (jsSin E))) M)
                 (jsSub (.num 1) (jsMul e (jsCos E))))

/-- Newton iteration with a convergence tolerance of `1e-6` radians and a
fixed fuel bound; if the tolerance is never met the best available estimate
is returned. -/
def keplerIter : ℕ → JsVal → JsVal → JsVal → JsVal
  | 0, _, _, E => E
  | fuel + 1, e, M, E =>
    let E' := keplerStep e M E
    if jsLtB (jsAbs (jsSub E' E)) (1 / 1000000) then E' else keplerIter fuel e M E'

/-- Solve Kepler's equation starting from `E₀ = M`, with the spec's
iteration cap of 30. -/
def solveKepler (M e : JsVal) : JsVal := keplerIter 30 e M M

/-- Modelled from the spec: `JulianDateToTrueAnomaly` lives in
`src/utils/orbits.js`, which is absent from the source snapshot; §4.3 gives
its contract.  Mean motion from Kepler's third law (`period = a^1.5` years,
converted to days), mean anomaly normalised to `[0, 2π)`, eccentric anomaly
by the capped Newton iteration, then
`ν = 2·atan2(√(1+e)·sin(E/2), √(1−e)·cos(E/2))`, normalised to `[0, 2π)`. -/
def JulianDateToTrueAnomaly (p : OrbitParams) (t : ℝ) : JsVal :=
  let period := jsMul (jsPow15 p.a) (.num (36525 / 100))
  let n := jsDiv (.num (2 * Real.pi)) period
  let M := jsMod2pi (jsAdd p.ma (jsMul n (.num (t - p.epoch))))
  let E := solveKepler M p.e
  let halfE := jsDiv E (.num 2)
  let snu := jsMul (jsSqrt (jsAdd (.num 1) p.e)) (jsSin halfE)
  let cnu := jsMul (jsSqrt (jsSub (.num 1) p.e)) (jsCos halfE)
  jsMod2pi (jsMul (.num 2) (jsAtan2 snu cnu))

/-- A tracked body (Orrery.jsx lines 216-230): its name, its element record
and its current rendered position. -/
structure Body where
  name : String
  orbitParams : OrbitParams
  pos : Vec3

/-- A meteor shower (Orrery.jsx lines 233-258): its parent-body element
record, the parent body's rendered position, and whether a parent-body mesh
exists (position updates are skipped without one). -/
structure Shower where
  orbitParams : OrbitParams
  pos : Vec3
  hasParentMesh : Bool

/-- `Body.setPosition` / `Shower.setPosition`: the mesh position is written
only when the new position passes `validatePosition`; otherwise the old
position is kept. -/
def setMeshPos (old newp : Vec3) : Vec3 :=
  match validatePosition newp with
  | some v => v
  | none => old

/-- The per-planet step of the animation loop (Orrery.jsx lines 1209-1250,
without the render-only mesh rotation): compute the true anomaly at the
shared Julian Date, skip the body when it is not finite, otherwise ensure
the transform matrix and update the position through the safe resolver. -/
def updatePlanet (jd : ℝ) (b : Body) : Body :=
  match JulianDateToTrueAnomaly b.orbitParams jd with
  | .bad => b
  | .num nu =>
    let mp := ensureTransformMatrix b.orbitParams
    let pos := getOrbitPositionSafe mp.2.a mp.2.e (.num nu) (some mp.1)
    { b with orbitParams := mp.2, pos := setMeshPos b.pos pos }

/-- The per-NEO step of the animation loop (Orrery.jsx lines 1253-1283):
identical to the planet step but driven by the shared Modified Julian
Date. -/
def updateNeo (mjd : ℝ) (b : Body) : Body :=
  match JulianDateToTrueAnomaly b.orbitParams mjd with
  | .bad => b
  | .num nu =>
    let mp := ensureTransformMatrix b.orbitParams
    let pos := getOrbitPositionSafe mp.2.a mp.2.e (.num nu) (some mp.1)
    { b with orbitParams := mp.2, pos := setMeshPos b.pos pos }

/-- The per-shower parent-body step (Orrery.jsx lines 1296-1311): only a
shower with a parent mesh is moved, with the same guards as the planet
step, at the shared Julian Date. -/
def updateShower (jd : ℝ) (sh : Shower) : Shower :=
  if sh.hasParentMesh then
    match JulianDateToTrueAnomaly sh.orbitParams jd with
    | .bad => sh
    | .num nu =>
      let mp := ensureTransformMatrix sh.orbitParams
      let pos := getOrbitPositionSafe mp.2.a mp.2.e (.num nu) (some mp.1)
      { sh with orbitParams := mp.2, pos := setMeshPos sh.pos pos }
  else sh

/-- The shower phase of a tick (Orrery.jsx lines 1285-1344, position updates
only): showers move only when an Earth planet exists, its true anomaly at
the shared Julian Date is finite, and the shower type is shown. -/
def showersStep (jd : ℝ) (shown : Bool) (planets : List Body) (showers : List Shower) :
    List Shower :=
  match planets.find? (fun b => b.name == "Earth") with
  | none => showers
  | some earth =>
    match JulianDateToTrueAnomaly earth.orbitParams jd with
    | .bad => showers
    | .num _ => if shown then showers.map (updateShower jd) else showers

/-- The mutable state the animation loop touches (`timeRef` and `dataRef`,
Orrery.jsx lines 294-309): the wall-clock stamp of the last frame that
passed the frame-rate gate, the simulated Julian and Modified Julian Dates,
the speed index, the tracked bodies, and the shower-visibility filter. -/
structure OrreryState where
  lastFrameTime : JsVal
  JD : ℝ
  MJD : ℝ
  timeSpeedIndex : ℕ
  planets : List Body
  neos : List Body
  showers : List Shower
  showersShown : Bool

/-- `timeRef.current.lastFrameTime || 0`: a falsy stamp (uninitialised or
`NaN`) reads as `0`. -/
def lastOrZero : JsVal → JsVal
  | .bad => .num 0
  | v => v

/-- `TIMESPEEDS[i]`: an out-of-bounds index reads `undefined`, which any
later arithmetic turns into `NaN`. -/
def lookupSpeed (i : ℕ) : JsVal :=
  match TIMESPEEDS.get? i with
  | some v => .num v
  | none => .bad

/-- The wall-clock delta computed at the top of a tick
(`time - (timeRef.current.lastFrameTime || 0)`). -/
def wallDelta (s : OrreryState) (t : JsVal) : JsVal :=
  jsSub t (lastOrZero s.lastFrameTime)

/-- One animation tick (Orrery.jsx lines 1176-1348, state-relevant part):
frames closer than 16.67 ms to the last accepted frame are dropped whole;
otherwise the time delta `deltaTime × TIMESPEEDS[speedIndex] / 1000` is
computed, a non-finite delta skips the frame (only the frame stamp was
written), and a finite delta advances JD and MJD once and then updates every
planet, NEO and shower against those advanced values. -/
def animate (s : OrreryState) (t : JsVal) : OrreryState :=
  let deltaTime := wallDelta s t
  if jsLtB deltaTime (1667 / 100) then s
  else
    let s1 := { s with lastFrameTime := t }
    match jsDiv (jsMul deltaTime (lookupSpeed s.timeSpeedIndex)) (.num 1000) with
    | .bad => s1
    | .num dj =>
      let jd := s.JD + dj
      let mjd := s.MJD + dj
      let planets1 := s.planets.map (updatePlanet jd)
      { s1 with
        JD := jd, MJD := mjd,
        planets := planets1,
        neos := s.neos.map (updateNeo mjd),
        showers := showersStep jd s.showersShown planets1 s.showers }

/-- The five clock actions (Orrery.jsx lines 1408-1431). -/
inductive TimeAction where
  | fastbackward | backward | now | forward | fastforward

/-- Modelled from the spec: `JDToMJD` lives in `src/utils/TimeUtils.js`,
which is absent from the source snapshot; the glossary defines the Modified
Julian Date by the standard offset from the Julian Date. -/
def JDToMJD (jd : ℝ) : ℝ := jd - 2400000.5

/-- `handleTimeControl` (Orrery.jsx lines 1408-1431): `fastbackward` and
`fastforward` move the speed index one step, clamped at the table ends;
`backward` and `forward` pin it to the slow backward/forward real-time
entries; `now` pins it to real-time forward and resets the clock to the
wall-clock Julian Date. -/
def handleTimeControl (action : TimeAction) (nowJD : ℝ) (s : OrreryState) : OrreryState :=
  match action with
  | .fastbackward =>
    if 0 < s.timeSpeedIndex then { s with timeSpeedIndex := s.timeSpeedIndex - 1 } else s
  | .backward => { s with timeSpeedIndex := 6 }
  | .now => { s with timeSpeedIndex := 7, JD := nowJD, MJD := JDToMJD nowJD }
  | .forward => { s with timeSpeedIndex := 7 }
  | .fastforward =>
    if s.timeSpeedIndex < TIMESPEEDS.length - 1 then
      { s with timeSpeedIndex := s.timeSpeedIndex + 1 }
    else s

/-- The degree-to-radian conversion applied to a fresh copy of the raw
record at load time (Orrery.jsx lines 551-555 and 639-643). -/
def processRecord (raw : OrbitParams) : OrbitParams :=
  { raw with
    inc := jsMul raw.inc (.num degToRad),
    node := jsMul raw.node (.num degToRad),
    peri := jsMul raw.peri (.num degToRad),
    ma := jsMul raw.ma (.num degToRad) }

/-- The per-record core of `initializePlanets` (Orrery.jsx lines 541-618,
without mesh and texture handling): validate the raw record (discarding the
sanitised copy), convert a fresh copy of the raw record to radians, build
the orbit curve, compute the initial position from the processed record's
own (still unset) transform matrix, and store the processed record on the
body. -/
def initializePlanetBody (name : String) (raw : OrbitParams) (points : ℕ) : Option Body :=
  match validateOrbitParams (some raw) with
  | none => none
  | some _ =>
    let processed := processRecord raw
    match createOrbitSafe (some processed) points with
    | none => none
    | some _ =>
      some { name := name, orbitParams := processed,
             pos := getOrbitPositionSafe processed.a processed.e (.num 0)
                      processed.transformMatrix }

/-- The per-record core of `initializeNeos` (Orrery.jsx lines 629-668,
without mesh handling): same shape as the planet initialiser. -/
def initializeNeoBody (name : String) (raw : OrbitParams) (points : ℕ) : Option Body :=
  match validateOrbitParams (some raw) with
  | none => none
  | some _ =>
    let processed := processRecord raw
    match createOrbitSafe (some processed) points with
    | none => none
    | some _ =>
      some { name := name, orbitParams := processed,
             pos := getOrbitPositionSafe processed.a processed.e (.num 0)
                      processed.transformMatrix }

/-- The five required fields of a record are all finite numbers. -/
def requiredFieldsOk (p : OrbitParams) : Bool :=
  isNum p.a && isNum p.e && isNum p.inc && isNum p.node && isNum p.peri

/-- A record with zero angles and no cached matrix, used to exercise the
transform-basis builder. -/
def zeroAngleRecord : OrbitParams :=
  { a := .num 1, e := .num 0, inc := .num 0, node := .num 0, peri := .num 0,
    ma := .num 0, epoch := 0, transformMatrix := none }

/-- A record with a negative (finite) eccentricity and otherwise valid
fields. -/
def negEccRecord : OrbitParams :=
  { a := .num 1, e := .num (-(1 / 2)), inc := .num 0, node := .num 0, peri := .num 0,
    ma := .num 0, epoch := 0, transformMatrix := none }

/-- A record with eccentricity 3/2, hitting the clamp branch of the
validator. -/
def clampRecord : OrbitParams :=
  { a := .num 1, e := .num (3 / 2), inc := .num 0, node := .num 0, peri := .num 0,
    ma := .num 0, epoch := 0, transformMatrix := none }

/-- A state with the speed index at the fast end of the table. -/
def stateAtMax : OrreryState :=
  { lastFrameTime := .num 0, JD := 0, MJD := 0, timeSpeedIndex := 13,
    planets := [], neos := [], showers := [], showersShown := false }

/-- A quiescent state at speed index 10 (1 day per second), used to exercise
single ticks. -/
def tickState : OrreryState :=
  { lastFrameTime := .num 0, JD := 0, MJD := 0, timeSpeedIndex := 10,
    planets := [], neos := [], showers := [], showersShown := false }

/-- A body whose semi-major axis is negative, so that `Math.pow(a, 1.5)`
inside the anomaly solver yields `NaN` and the solver fails. -/
def badAnomalyBody : Body :=
  { name := "degenerate",
    orbitParams := { a := .num (-1), e := .num (1 / 2), inc := .num 0, node := .num 0,
                     peri := .num 0, ma := .num 0, epoch := 0, transformMatrix := none },
    pos := (.num 1, .num 2, .num 3) }

/-- A record whose eccentricity −1 passes validation but makes the curve
sampler divide by zero at true anomaly 0. -/
def degenOrbitRecord : OrbitParams :=
  { a := .num 1, e := .num (-1), inc := .num 0, node := .num 0, peri := .num 0,
    ma := .num 0, epoch := 0, transformMatrix := none }

/-- A well-behaved circular record (a = 1, e = 0, all angles 0). -/
def goodOrbitRecord : OrbitParams :=
  { a := .num 1, e := .num 0, inc := .num 0, node := .num 0, peri := .num 0,
    ma := .num 0, epoch := 0, transformMatrix := none }

/-- The identity rotation rows produced for all-zero angles. -/
def goodOrbitRows : List Vec3 :=
  [(.num 1, .num 0, .num 0), (.num 0, .num 1, .num 0), (.num 0, .num 0, .num 1)]

/-- A raw record with eccentricity 3/2 (≥ 1) and otherwise valid fields, as
a NEO data file could supply after the degree-valued angles are read. -/
def c10raw : OrbitParams :=
  { a := .num 1, e := .num (3 / 2), inc := .num 0, node := .num 0, peri := .num 0,
    ma := .num 0, epoch := 0, transformMatrix := none }

/-- The radian-converted fresh copy of `c10raw` the initialisers store. -/
def c10processed : OrbitParams :=
  { a := .num 1, e := .num (3 / 2), inc := .num 0, node := .num 0, peri := .num 0,
    ma := .num 0, epoch := 0, transformMatrix := none }

/-- The sanitised copy the validator builds from `c10processed` (and the
initialisers discard). -/
def c10clamped : OrbitParams :=
  { a := .num 1, e := .num (999 / 1000), inc := .num 0, node := .num 0, peri := .num 0,
    ma := .num 0, epoch := 0, transformMatrix := none }

/-- The body the NEO initialiser builds from `c10raw`: it stores the
processed copy of the RAW record (eccentricity 3/2, not 0.999), and its
initial position is the origin because the processed record's own transform
matrix was never attached. -/
def c10body : Body :=
  { name := "neo", orbitParams := c10processed, pos := (.num 0, .num 0, .num 0) }

theorem jsAdd_num_num (x y : ℝ) : jsAdd (.num x) (.num y) = .num (x + y) := rfl

theorem jsAdd_bad_left (v : JsVal) : jsAdd .bad v = .bad := by cases v <;> rfl

theorem jsAdd_bad_right (v : JsVal) : jsAdd v .bad = .bad := by cases v <;> rfl

theorem jsSub_num_num (x y : ℝ) : jsSub (.num x) (.num y) = .num (x - y) := rfl

theorem jsSub_bad_left (v : JsVal) : jsSub .bad v = .bad := by cases v <;> rfl

theorem jsSub_bad_right (v : JsVal) : jsSub v .bad = .bad := by cases v <;> rfl

theorem jsMul_num_num (x y : ℝ) : jsMul (.num x) (.num y) = .num (x * y) := rfl

theorem jsMul_bad_left (v : JsVal) : jsMul .bad v = .bad := by cases v <;> rfl

theorem jsMul_bad_right (v : JsVal) : jsMul v .bad = .bad := by cases v <;> rfl

theorem jsDiv_bad_left (v : JsVal) : jsDiv .bad v = .bad := by cases v <;> rfl

theorem jsDiv_bad_right (v : JsVal) : jsDiv v .bad = .bad := by cases v <;> rfl

theorem jsLtB_bad (c : ℝ) : jsLtB .bad c = false := rfl

theorem keplerStep_bad (e : JsVal) : keplerStep e .bad .bad = .bad := by
  cases e <;> simp [keplerStep, jsSub_bad_left, jsSub_bad_right, jsDiv_bad_left,
    jsDiv_bad_right, jsMul_bad_right, jsSin, jsCos, jsMul, jsSub, jsDiv]

theorem keplerIter_bad (fuel : ℕ) (e : JsVal) : keplerIter fuel e .bad .bad = .bad := by
  induction fuel with
  | zero => rfl
  | succ n ih =>
    simp [keplerIter, keplerStep_bad, jsSub_bad_left, jsAbs, jsLtB_bad, ih]

/-- Building the basis from a record with finite angles and no cached
matrix yields exactly the spec's rows and attaches them to the record. -/
theorem ensureTransformMatrix_eq (p : OrbitParams) (i nd pe : ℝ)
    (hi : p.inc = .num i) (hn : p.node = .num nd) (hp : p.peri = .num pe)
    (hm : p.transformMatrix = none) :
    ensureTransformMatrix p =
      (specTransformRows i nd pe,
       { p with transformMatrix := some (specTransformRows i nd pe) }) := by
  simp only [ensureTransformMatrix, hi, hn, hp, hm, specTransformRows,
    jsCos, jsSin, jsMul, jsSub, jsAdd, jsNeg, Prod.mk.injEq, List.cons.injEq,
    JsVal.num.injEq, OrbitParams.mk.injEq, Option.some.injEq, and_true, neg_mul]

/-- Claim C1: for a record with finite angles and no cached matrix,
`ensureTransformMatrix` produces exactly the spec's three-row rotation
matrix; two calls with identical angles yield identical matrices; and once
the matrix is cached on the record, every later call returns that cached
matrix and leaves the record untouched. -/
theorem ensureTransformMatrix_correct (p : OrbitParams) (i nd pe : ℝ)
    (hi : p.inc = .num i) (hn : p.node = .num nd) (hp : p.peri = .num pe)
    (hm : p.transformMatrix = none) :
    (ensureTransformMatrix p).1 = specTransformRows i nd pe ∧
    (∀ q : OrbitParams, q.inc = .num i → q.node = .num nd → q.peri = .num pe →
        q.transformMatrix = none →
        (ensureTransformMatrix q).1 = (ensureTransformMatrix p).1) ∧
    (ensureTransformMatrix p).2.transformMatrix = some (ensureTransformMatrix p).1 ∧
    ensureTransformMatrix (ensureTransformMatrix p).2 = ensureTransformMatrix p := by
  have key := ensureTransformMatrix_eq p i nd pe hi hn hp hm
  refine ⟨by rw [key],
    fun q h1 h2 h3 h4 => by rw [key, ensureTransformMatrix_eq q i nd pe h1 h2 h3 h4], ?_, ?_⟩
  · rw [key]
  · rw [key]
    simp [ensureTransformMatrix]

/-- Witness for C1 at the all-zero-angle record. -/
theorem ensureTransformMatrix_correct_witness :
    (ensureTransformMatrix zeroAngleRecord).1 = specTransformRows 0 0 0 ∧
    ensureTransformMatrix (ensureTransformMatrix zeroAngleRecord).2 =
      ensureTransformMatrix zeroAngleRecord :=
  ⟨(ensureTransformMatrix_correct zeroAngleRecord 0 0 0 rfl rfl rfl rfl).1,
   (ensureTransformMatrix_correct zeroAngleRecord 0 0 0 rfl rfl rfl rfl).2.2.2⟩

/-- Claim C2: the validator rejects a record exactly when one of the five
required fields is not a finite number or the semi-major axis is
non-positive; in every other case it returns a sanitised record. -/
theorem validateOrbitParams_rejects_iff (p : OrbitParams) :
    validateOrbitParams (some p) = none ↔
      requiredFieldsOk p = false ∨ ∃ a0 : ℝ, p.a = .num a0 ∧ a0 ≤ 0 := by
  obtain ⟨a, e, inc, node, peri, ma, ep, tm⟩ := p
  cases a <;> cases e <;> cases inc <;> cases node <;> cases peri <;>
    simp [validateOrbitParams, requiredFieldsOk, isNum]

/-- Counterexample for C3: the validator accepts a record whose eccentricity
is −1/2, returning it unchanged, and −1/2 does not lie in [0, 1). -/
theorem validateOrbitParams_negEcc_cx :
    validateOrbitParams (some negEccRecord) = some negEccRecord ∧
    ¬ (0 ≤ (-(1 / 2) : ℝ) ∧ (-(1 / 2) : ℝ) < 1) := by
  constructor
  · simp [validateOrbitParams, negEccRecord]
    norm_num
  · norm_num

/-- Claim C3 (amended): every accepted record has eccentricity strictly
below 1, and an input eccentricity ≥ 1 is clamped to 0.999 rather than
rejected; the full `[0, 1)` bound holds whenever the raw eccentricity is
non-negative, while a negative raw eccentricity is accepted unchanged
(outside `[0, 1)`). -/
theorem validateOrbitParams_ecc_clamp (p q : OrbitParams) (e0 : ℝ)
    (he : p.e = .num e0) (hacc : validateOrbitParams (some p) = some q) :
    (∃ e1 : ℝ, q.e = .num e1 ∧ e1 < 1) ∧
    (1 ≤ e0 → q.e = .num (999 / 1000)) ∧
    (0 ≤ e0 → ∃ e1 : ℝ, q.e = .num e1 ∧ 0 ≤ e1 ∧ e1 < 1) ∧
    (e0 < 0 → q.e = .num e0) := by
  obtain ⟨a, e, inc, node, peri, ma, ep, tm⟩ := p
  cases a <;> cases e <;> cases inc <;> cases node <;> cases peri <;>
    simp_all [validateOrbitParams]
  obtain ⟨-, rfl⟩ := hacc
  by_cases h1 : 1 ≤ e0
  · have hcond : e0 < 0 ∨ 1 ≤ e0 := Or.inr h1
    exact ⟨⟨999 / 1000, by simp [hcond, h1], by norm_num⟩,
      fun _ => by simp [hcond, h1],
      fun _ => ⟨999 / 1000, by simp [hcond, h1], by norm_num, by norm_num⟩,
      fun h0 => absurd h0 (by linarith)⟩
  · by_cases h0 : e0 < 0
    · have hcond : e0 < 0 ∨ 1 ≤ e0 := Or.inl h0
      exact ⟨⟨e0, by simp [hcond, h1], by linarith⟩,
        fun h => absurd h h1,
        fun h => absurd h (by linarith),
        fun _ => by simp [hcond, h1]⟩
    · have hcond : ¬ (e0 < 0 ∨ 1 ≤ e0) := by push_neg; exact ⟨by linarith, by linarith⟩
      exact ⟨⟨e0, by simp [hcond], by linarith⟩,
        fun h => absurd h h1,
        fun _ => ⟨e0, by simp [hcond], by linarith, by linarith⟩,
        fun h => absurd h h0⟩

/-- A position that passes `validatePosition` has three finite
coordinates. -/
theorem validatePosition_some (p v : Vec3) (h : validatePosition p = some v) :
    ∃ x y z : ℝ, v = (.num x, .num y, .num z) := by
  obtain ⟨px, py, pz⟩ := p
  cases px <;> cases py <;> cases pz <;> simp [validatePosition] at h <;>
    exact ⟨_, _, _, h.symm⟩

/-- Claim C4: the safe position resolver returns the origin sentinel
whenever `a`, `e` or the true anomaly is non-finite, the transform matrix is
missing or not of length 3, or the computed position fails validation; and
its result always has three finite coordinates. -/
theorem getOrbitPositionSafe_failsafe (a e nu : JsVal) (tm : Option (List Vec3)) :
    ((a = .bad ∨ e = .bad ∨ nu = .bad) →
        getOrbitPositionSafe a e nu tm = (.num 0, .num 0, .num 0)) ∧
    (tm = none → getOrbitPositionSafe a e nu tm = (.num 0, .num 0, .num 0)) ∧
    (∀ rows : List Vec3, tm = some rows → rows.length ≠ 3 →
        getOrbitPositionSafe a e nu tm = (.num 0, .num 0, .num 0)) ∧
    (∀ r1 r2 r3 : Vec3, tm = some [r1, r2, r3] →
        validatePosition (getOrbitPosition a e nu r1 r2 r3) = none →
        getOrbitPositionSafe a e nu tm = (.num 0, .num 0, .num 0)) ∧
    (∃ x y z : ℝ, getOrbitPositionSafe a e nu tm = (.num x, .num y, .num z)) := by
  cases a <;> cases e <;> cases nu <;>
    try exact ⟨fun _ => rfl, fun _ => rfl, fun _ _ _ => rfl, fun _ _ _ _ _ => rfl,
      ⟨0, 0, 0, rfl⟩⟩
  case num.num.num a0 e0 n0 =>
    cases tm with
    | none =>
      exact ⟨fun h => by simp at h, fun _ => rfl, fun rows hr => by simp at hr,
        fun r1 r2 r3 hr => by simp at hr, ⟨0, 0, 0, rfl⟩⟩
    | some rows =>
      rcases rows with - | ⟨r1, - | ⟨r2, - | ⟨r3, - | ⟨r4, rest⟩⟩⟩⟩
      case nil =>
        exact ⟨fun h => by simp at h, fun h => by simp at h, fun _ _ _ => rfl,
          fun r1 r2 r3 hr => by simp at hr, ⟨0, 0, 0, rfl⟩⟩
      case cons.nil =>
        exact ⟨fun h => by simp at h, fun h => by simp at h, fun _ _ _ => rfl,
          fun s1 s2 s3 hr => by simp at hr, ⟨0, 0, 0, rfl⟩⟩
      case cons.cons.nil =>
        exact ⟨fun h => by simp at h, fun h => by simp at h, fun _ _ _ => rfl,
          fun s1 s2 s3 hr => by simp at hr, ⟨0, 0, 0, rfl⟩⟩
      case cons.cons.cons.cons =>
        exact ⟨fun h => by simp at h, fun h => by simp at h, fun _ _ _ => rfl,
          fun s1 s2 s3 hr => by simp at hr, ⟨0, 0, 0, rfl⟩⟩
      case cons.cons.cons.nil =>
        have hsafe : getOrbitPositionSafe (.num a0) (.num e0) (.num n0) (some [r1, r2, r3]) =
            match validatePosition (getOrbitPosition (.num a0) (.num e0) (.num n0) r1 r2 r3) with
            | some pos => pos
            | none => (.num 0, .num 0, .num 0) := rfl
        cases hv : validatePosition
            (getOrbitPosition (.num a0) (.num e0) (.num n0) r1 r2 r3) with
        | none =>
          have hres : getOrbitPositionSafe (.num a0) (.num e0) (.num n0) (some [r1, r2, r3]) =
              (.num 0, .num 0, .num 0) := by rw [hsafe, hv]
          exact ⟨fun h => by simp at h, fun h => by simp at h,
            fun rows hr h3 => hres, fun s1 s2 s3 hr hval => hres, ⟨0, 0, 0, hres⟩⟩
        | some v =>
          obtain ⟨x, y, z, rfl⟩ := validatePosition_some _ _ hv
          have hres : getOrbitPositionSafe (.num a0) (.num e0) (.num n0) (some [r1, r2, r3]) =
              (.num x, .num y, .num z) := by rw [hsafe, hv]
          refine ⟨fun h => by simp at h, fun h => by simp at h, ?_, ?_, ⟨x, y, z, hres⟩⟩
          · intro rows hr h3
            obtain rfl : [r1, r2, r3] = rows := by simpa using hr
            simp at h3
          · intro s1 s2 s3 hr hval
            obtain ⟨h1, h2, h3⟩ : r1 = s1 ∧ r2 = s2 ∧ r3 = s3 := by simpa using hr
            subst h1; subst h2; subst h3
            rw [hval] at hv
            cases hv

/-- Witness for C4: a non-finite semi-major axis, a missing matrix, a
wrong-length matrix, and a degenerate position (eccentricity −1 at true
anomaly 0 makes the resolver divide by zero) all map to the origin, and the
result always has finite coordinates. -/
theorem getOrbitPositionSafe_failsafe_witness :
    getOrbitPositionSafe .bad (.num 0) (.num 0) none = (.num 0, .num 0, .num 0) ∧
    getOrbitPositionSafe (.num 1) (.num 0) (.num 0) none = (.num 0, .num 0, .num 0) ∧
    getOrbitPositionSafe (.num 1) (.num 0) (.num 0) (some []) = (.num 0, .num 0, .num 0) ∧
    getOrbitPositionSafe (.num 1) (.num (-1)) (.num 0)
      (some [(.num 1, .num 0, .num 0), (.num 1, .num 0, .num 0), (.num 1, .num 0, .num 0)]) =
      (.num 0, .num 0, .num 0) ∧
    (∃ x y z : ℝ, getOrbitPositionSafe .bad (.num 0) (.num 0) none =
      (.num x, .num y, .num z)) := by
  refine ⟨(getOrbitPositionSafe_failsafe .bad (.num 0) (.num 0) none).1 (Or.inl rfl),
    (getOrbitPositionSafe_failsafe (.num 1) (.num 0) (.num 0) none).2.1 rfl,
    (getOrbitPositionSafe_failsafe (.num 1) (.num 0) (.num 0) (some [])).2.2.1 [] rfl
      (by decide),
    (getOrbitPositionSafe_failsafe (.num 1) (.num (-1)) (.num 0) _).2.2.2.1
      (.num 1, .num 0, .num 0) (.num 1, .num 0, .num 0) (.num 1, .num 0, .num 0) rfl ?_,
    (getOrbitPositionSafe_failsafe .bad (.num 0) (.num 0) none).2.2.2.2⟩
  have hden : (1 : ℝ) + (-1) * Real.cos 0 = 0 := by norm_num
  simp [getOrbitPosition, rowDot, jsCos, jsSin, jsMul, jsSub, jsAdd, jsDiv, hden,
    validatePosition]

/-- Claim C7: every clock action preserves `timeSpeedIndex <
TIMESPEEDS.length` (equivalently `0 ≤ index ≤ 13`); `fastforward` and
`fastbackward` move the index by exactly one step and are no-ops at the
respective table ends. -/
theorem timeSpeedIndex_invariant (action : TimeAction) (nowJD : ℝ) (s : OrreryState)
    (h : s.timeSpeedIndex < TIMESPEEDS.length) :
    (handleTimeControl action nowJD s).timeSpeedIndex < TIMESPEEDS.length ∧
    (action = .fastforward → s.timeSpeedIndex < TIMESPEEDS.length - 1 →
        (handleTimeControl action nowJD s).timeSpeedIndex = s.timeSpeedIndex + 1) ∧
    (action = .fastforward → s.timeSpeedIndex = TIMESPEEDS.length - 1 →
        (handleTimeControl action nowJD s).timeSpeedIndex = s.timeSpeedIndex) ∧
    (action = .fastbackward → 0 < s.timeSpeedIndex →
        (handleTimeControl action nowJD s).timeSpeedIndex = s.timeSpeedIndex - 1) ∧
    (action = .fastbackward → s.timeSpeedIndex = 0 →
        (handleTimeControl action nowJD s).timeSpeedIndex = 0) := by
  have hl : TIMESPEEDS.length = 14 := rfl
  simp only [hl] at h ⊢
  cases action with
  | fastbackward =>
    refine ⟨?_, ?_, ?_, ?_, ?_⟩
    · by_cases hp : 0 < s.timeSpeedIndex <;> simp [handleTimeControl, hp] <;> omega
    · intro hc; exact nomatch hc
    · intro hc; exact nomatch hc
    · intro _ hpos; simp [handleTimeControl, hpos]
    · intro _ h0; simp [handleTimeControl, h0]
  | backward =>
    refine ⟨by simp [handleTimeControl], ?_, ?_, ?_, ?_⟩ <;> intro hc <;> exact nomatch hc
  | now =>
    refine ⟨by simp [handleTimeControl], ?_, ?_, ?_, ?_⟩ <;> intro hc <;> exact nomatch hc
  | forward =>
    refine ⟨by simp [handleTimeControl], ?_, ?_, ?_, ?_⟩ <;> intro hc <;> exact nomatch hc
  | fastforward =>
    refine ⟨?_, ?_, ?_, ?_, ?_⟩
    · by_cases hp : s.timeSpeedIndex < 13 <;>
        simp [handleTimeControl, hl, hp] <;> omega
    · intro _ hlt
      have hp : s.timeSpeedIndex < 13 := by omega
      simp [handleTimeControl, hl, hp]
    · intro _ heq
      have hp : ¬ s.timeSpeedIndex < 13 := by omega
      simp [handleTimeControl, hl, hp]
    · intro hc; exact nomatch hc
    · intro hc; exact nomatch hc

/-- Witness for C7: `fastforward` at the fastest entry (index 13) keeps the
index at 13, inside the table. -/
theorem timeSpeedIndex_invariant_witness :
    (handleTimeControl .fastforward 0 stateAtMax).timeSpeedIndex < TIMESPEEDS.length ∧
    (handleTimeControl .fastforward 0 stateAtMax).timeSpeedIndex =
      stateAtMax.timeSpeedIndex :=
  ⟨(timeSpeedIndex_invariant .fastforward 0 stateAtMax (by decide)).1,
   (timeSpeedIndex_invariant .fastforward 0 stateAtMax (by decide)).2.2.1 rfl (by decide)⟩

/-- Witness for C3 (amended) at eccentricity 3/2: the accepted copy carries
the clamped value 0.999. -/
theorem validateOrbitParams_ecc_clamp_witness :
    ({ clampRecord with e := JsVal.num (999 / 1000) } : OrbitParams).e =
      JsVal.num (999 / 1000) := by
  have hacc : validateOrbitParams (some clampRecord) =
      some { clampRecord with e := JsVal.num (999 / 1000) } := by
    simp [validateOrbitParams, clampRecord]
    norm_num
  exact (validateOrbitParams_ecc_clamp clampRecord _ (3 / 2) rfl hacc).2.1 (by norm_num)

/-- Claim C5: a tick whose wall-clock delta is a finite number below
16.67 ms is a complete no-op; otherwise the simulated JD and MJD both
advance by exactly `delta × TIMESPEEDS[speedIndex] / 1000` days; and a tick
whose computed time delta is non-finite leaves the simulated time and every
body untouched. -/
theorem animate_tick_spec (s : OrreryState) (t : JsVal) :
    (∀ d : ℝ, wallDelta s t = .num d → d < 1667 / 100 → animate s t = s) ∧
    (∀ d v : ℝ, wallDelta s t = .num d → ¬ d < 1667 / 100 →
        TIMESPEEDS[s.timeSpeedIndex]? = some v →
        (animate s t).JD = s.JD + d * v / 1000 ∧
        (animate s t).MJD = s.MJD + d * v / 1000) ∧
    (jsDiv (jsMul (wallDelta s t) (lookupSpeed s.timeSpeedIndex)) (.num 1000) = .bad →
        (animate s t).JD = s.JD ∧ (animate s t).MJD = s.MJD ∧
        (animate s t).planets = s.planets ∧ (animate s t).neos = s.neos ∧
        (animate s t).showers = s.showers) := by
  refine ⟨?_, ?_, ?_⟩
  · intro d hd hlt
    have hcond : jsLtB (wallDelta s t) (1667 / 100) = true := by
      simp [hd, jsLtB, hlt]
    simp [animate, hcond]
  · intro d v hd hge hv
    have hcond : jsLtB (wallDelta s t) (1667 / 100) = false := by
      simp [hd, jsLtB, hge]
    have hspeed : lookupSpeed s.timeSpeedIndex = .num v := by
      simp [lookupSpeed, hv]
    have hdj : jsDiv (jsMul (wallDelta s t) (lookupSpeed s.timeSpeedIndex)) (.num 1000) =
        .num (d * v / 1000) := by
      rw [hd, hspeed]
      simp [jsMul, jsDiv]
    constructor <;> simp [animate, hcond, hdj]
  · intro hbad
    by_cases hcond : jsLtB (wallDelta s t) (1667 / 100) = true
    · simp [animate, hcond]
    · have hcond' : jsLtB (wallDelta s t) (1667 / 100) = false := by
        simpa using hcond
      refine ⟨?_, ?_, ?_, ?_, ?_⟩ <;> simp [animate, hcond', hbad]

/-- Witness for C5: from a quiescent state at speed 1 day/s, a 5 ms frame
is dropped whole; a 100 ms frame advances JD and MJD by exactly
100 × 1 / 1000 days; a non-finite frame stamp leaves time and bodies
untouched. -/
theorem animate_tick_spec_witness :
    animate tickState (.num 5) = tickState ∧
    (animate tickState (.num 100)).JD = tickState.JD + (100 - 0) * 1 / 1000 ∧
    (animate tickState (.num 100)).MJD = tickState.MJD + (100 - 0) * 1 / 1000 ∧
    (animate tickState .bad).JD = tickState.JD ∧
    (animate tickState .bad).planets = tickState.planets := by
  have h5 : wallDelta tickState (.num 5) = .num (5 - 0) := rfl
  have h100 : wallDelta tickState (.num 100) = .num (100 - 0) := rfl
  have hsp : TIMESPEEDS[tickState.timeSpeedIndex]? = some 1 := rfl
  have hbadv : jsDiv (jsMul (wallDelta tickState .bad)
      (lookupSpeed tickState.timeSpeedIndex)) (.num 1000) = .bad := rfl
  refine ⟨(animate_tick_spec tickState (.num 5)).1 (5 - 0) h5 (by norm_num), ?_, ?_, ?_, ?_⟩
  · exact ((animate_tick_spec tickState (.num 100)).2.1 (100 - 0) 1 h100 (by norm_num) hsp).1
  · exact ((animate_tick_spec tickState (.num 100)).2.1 (100 - 0) 1 h100 (by norm_num) hsp).2
  · exact ((animate_tick_spec tickState .bad).2.2 hbadv).1
  · exact ((animate_tick_spec tickState .bad).2.2 hbadv).2.2.1

/-- Claim C9: in every tick, either nothing is advanced (dropped or skipped
frame), or the simulated time advances exactly once by a single delta and
every planet, NEO and shower update is computed against those same advanced
JD/MJD values. -/
theorem tick_uniform_time (s : OrreryState) (t : JsVal) :
    ((animate s t).JD = s.JD ∧ (animate s t).MJD = s.MJD ∧
     (animate s t).planets = s.planets ∧ (animate s t).neos = s.neos ∧
     (animate s t).showers = s.showers) ∨
    (∃ dj : ℝ,
      (animate s t).JD = s.JD + dj ∧ (animate s t).MJD = s.MJD + dj ∧
      (animate s t).planets = s.planets.map (updatePlanet (s.JD + dj)) ∧
      (animate s t).neos = s.neos.map (updateNeo (s.MJD + dj)) ∧
      (animate s t).showers =
        showersStep (s.JD + dj) s.showersShown
          (s.planets.map (updatePlanet (s.JD + dj))) s.showers) := by
  by_cases hcond : jsLtB (wallDelta s t) (1667 / 100) = true
  · left
    refine ⟨?_, ?_, ?_, ?_, ?_⟩ <;> simp [animate, hcond]
  · have hcond' : jsLtB (wallDelta s t) (1667 / 100) = false := by simpa using hcond
    cases hdj : jsDiv (jsMul (wallDelta s t) (lookupSpeed s.timeSpeedIndex)) (.num 1000) with
    | bad =>
      left
      refine ⟨?_, ?_, ?_, ?_, ?_⟩ <;> simp [animate, hcond', hdj]
    | num dj =>
      right
      refine ⟨dj, ?_, ?_, ?_, ?_, ?_⟩ <;> simp [animate, hcond', hdj]

/-- Claim C6: when the computed true anomaly of a body is non-finite, the
per-body update returns the body unchanged (its previous position is
retained, with no origin snap), and because the loop maps each body
independently, every other body's update still takes place. -/
theorem anomaly_failure_freezes_body (jd : ℝ) (b : Body) (l : List Body) (i : ℕ)
    (hb : JulianDateToTrueAnomaly b.orbitParams jd = .bad) :
    updatePlanet jd b = b ∧ updateNeo jd b = b ∧
    (l.map (updatePlanet jd))[i]? = l[i]?.map (updatePlanet jd) ∧
    (l.map (updateNeo jd))[i]? = l[i]?.map (updateNeo jd) := by
  refine ⟨?_, ?_, ?_, ?_⟩
  · simp [updatePlanet, hb]
  · simp [updateNeo, hb]
  · exact List.getElem?_map _ _ _
  · exact List.getElem?_map _ _ _

/-- The anomaly solver fails on the degenerate body. -/
theorem badAnomalyBody_solver_fails :
    JulianDateToTrueAnomaly badAnomalyBody.orbitParams 0 = .bad := by
  have hpow : jsPow15 (.num (-1)) = .bad := by
    simp only [jsPow15]
    rw [if_pos (by norm_num)]
  simp [JulianDateToTrueAnomaly, badAnomalyBody, hpow, jsMul_bad_left, jsDiv_bad_right,
    jsMul_bad_right, jsAdd_bad_right, jsMod2pi, solveKepler, keplerIter_bad,
    jsDiv_bad_left, jsSin, jsAtan2, jsMul, jsAdd, jsSub]

/-- Witness for C6 at the degenerate body: it is returned unchanged while a
sibling list still maps through the update. -/
theorem anomaly_failure_freezes_body_witness :
    updatePlanet 0 badAnomalyBody = badAnomalyBody ∧
    updateNeo 0 badAnomalyBody = badAnomalyBody ∧
    ([badAnomalyBody].map (updatePlanet 0))[0]? =
      [badAnomalyBody][0]?.map (updatePlanet 0) := by
  have h := anomaly_failure_freezes_body 0 badAnomalyBody [badAnomalyBody] 0
    badAnomalyBody_solver_fails
  exact ⟨h.1, h.2.1, h.2.2.1⟩

/-- Claim C8: orbit-curve creation is all-or-nothing: it returns `none`
when validation fails or when any coordinate of the generated geometry is
not a finite number, and whenever it returns an orbit every coordinate of
that orbit's geometry is finite. -/
theorem createOrbitSafe_all_or_nothing (p : Option OrbitParams) (points : ℕ) :
    (validateOrbitParams p = none → createOrbitSafe p points = none) ∧
    (∀ vp, validateOrbitParams p = some vp →
        (createOrbit vp points).1.all isNum = false → createOrbitSafe p points = none) ∧
    (∀ geo vp', createOrbitSafe p points = some (geo, vp') →
        ∀ v ∈ geo, isNum v = true) := by
  refine ⟨?_, ?_, ?_⟩
  · intro h
    simp [createOrbitSafe, h]
  · intro vp hvp hall
    simp [createOrbitSafe, hvp, hall]
  · intro geo vp' hsome v hv
    rw [createOrbitSafe] at hsome
    cases hval : validateOrbitParams p with
    | none => rw [hval] at hsome; cases hsome
    | some vp =>
      rw [hval] at hsome
      simp only at hsome
      by_cases hall : (createOrbit vp points).1.all isNum = true
      · rw [if_pos hall] at hsome
        obtain ⟨hgeo, -⟩ : (createOrbit vp points).1 = geo ∧ (createOrbit vp points).2 = vp' := by
          cases hsome' : createOrbit vp points with
          | mk g q =>
            rw [hsome'] at hsome
            cases hsome
            exact ⟨rfl, rfl⟩
        rw [hgeo] at hall
        exact List.all_eq_true.mp hall v hv
      · rw [if_neg hall] at hsome
        cases hsome

/-- Witness for C8: a null record is rejected; a record with eccentricity −1
passes validation but produces a degenerate sample, so the whole curve is
rejected; a circular record yields a curve whose geometry is all finite. -/
theorem createOrbitSafe_all_or_nothing_witness :
    createOrbitSafe none 1 = none ∧
    createOrbitSafe (some degenOrbitRecord) 1 = none ∧
    (∀ v ∈ [JsVal.num 1, JsVal.num 0, JsVal.num 0], isNum v = true) := by
  have hrange : List.range 1 = [0] := by decide
  have hspec0 : specTransformRows 0 0 0 = goodOrbitRows := by
    norm_num [specTransformRows, goodOrbitRows, Real.cos_zero, Real.sin_zero]
  have hrowsD : ensureTransformMatrix degenOrbitRecord =
      (goodOrbitRows, { degenOrbitRecord with transformMatrix := some goodOrbitRows }) := by
    rw [ensureTransformMatrix_eq degenOrbitRecord 0 0 0 rfl rfl rfl rfl, hspec0]
  have hposD : getOrbitPosition (.num 1) (.num (-1)) (.num 0)
      (.num 1, .num 0, .num 0) (.num 0, .num 1, .num 0) (.num 0, .num 0, .num 1) =
      (.bad, .bad, .bad) := by
    norm_num [getOrbitPosition, rowDot, jsCos, jsSin, jsMul, jsAdd, jsSub, jsDiv,
      Real.cos_zero, Real.sin_zero, jsMul_bad_left, jsMul_bad_right, jsAdd_bad_left,
      jsAdd_bad_right]
  have hvp : validateOrbitParams (some degenOrbitRecord) = some degenOrbitRecord := by
    norm_num [validateOrbitParams, degenOrbitRecord]
  have haD : degenOrbitRecord.a = JsVal.num 1 := rfl
  have heD : degenOrbitRecord.e = JsVal.num (-1) := rfl
  have hcreateD : createOrbit degenOrbitRecord 1 =
      ([.bad, .bad, .bad], { degenOrbitRecord with transformMatrix := some goodOrbitRows }) := by
    simp only [createOrbit, hrowsD, goodOrbitRows, hrange, List.map, List.flatten,
      haD, heD]
    simp [hposD]
  have hall : (createOrbit degenOrbitRecord 1).1.all isNum = false := by
    rw [hcreateD]
    simp [isNum]
  have hrowsG : ensureTransformMatrix goodOrbitRecord =
      (goodOrbitRows, { goodOrbitRecord with transformMatrix := some goodOrbitRows }) := by
    rw [ensureTransformMatrix_eq goodOrbitRecord 0 0 0 rfl rfl rfl rfl, hspec0]
  have hposG : getOrbitPosition (.num 1) (.num 0) (.num 0)
      (.num 1, .num 0, .num 0) (.num 0, .num 1, .num 0) (.num 0, .num 0, .num 1) =
      (.num 1, .num 0, .num 0) := by
    norm_num [getOrbitPosition, rowDot, jsCos, jsSin, jsMul, jsAdd, jsSub, jsDiv,
      Real.cos_zero, Real.sin_zero]
  have hvpG : validateOrbitParams (some goodOrbitRecord) = some goodOrbitRecord := by
    norm_num [validateOrbitParams, goodOrbitRecord]
  have haG : goodOrbitRecord.a = JsVal.num 1 := rfl
  have heG : goodOrbitRecord.e = JsVal.num 0 := rfl
  have hcreateG : createOrbit goodOrbitRecord 1 =
      ([JsVal.num 1, JsVal.num 0, JsVal.num 0],
       { goodOrbitRecord with transformMatrix := some goodOrbitRows }) := by
    simp only [createOrbit, hrowsG, goodOrbitRows, hrange, List.map, List.flatten,
      haG, heG]
    simp [hposG]
  have hsome : createOrbitSafe (some goodOrbitRecord) 1 =
      some ([JsVal.num 1, JsVal.num 0, JsVal.num 0],
        { goodOrbitRecord with transformMatrix := some goodOrbitRows }) := by
    simp only [createOrbitSafe, hvpG, hcreateG]
    simp [isNum]
  exact ⟨(createOrbitSafe_all_or_nothing none 1).1 rfl,
    (createOrbitSafe_all_or_nothing (some degenOrbitRecord) 1).2.1 degenOrbitRecord hvp hall,
    (createOrbitSafe_all_or_nothing (some goodOrbitRecord) 1).2.2 _ _ hsome⟩

/-- The zero-angle transform basis is the identity rows. -/
theorem specTransformRows_zero : specTransformRows 0 0 0 = goodOrbitRows := by
  norm_num [specTransformRows, goodOrbitRows, Real.cos_zero, Real.sin_zero]

theorem range_one_eq : List.range 1 = [0] := by decide

/-- Attaching the transform matrix never changes the eccentricity field. -/
theorem ensureTransformMatrix_preserves_e (p : OrbitParams) :
    (ensureTransformMatrix p).2.e = p.e := by
  cases h : p.transformMatrix <;> simp [ensureTransformMatrix, h]

/-- A per-frame NEO update never changes the stored eccentricity. -/
theorem updateNeo_preserves_e (mjd : ℝ) (b : Body) :
    (updateNeo mjd b).orbitParams.e = b.orbitParams.e := by
  cases h : JulianDateToTrueAnomaly b.orbitParams mjd <;>
    simp [updateNeo, h, ensureTransformMatrix_preserves_e]

/-- With finite inputs, identity-free rows and a nonzero denominator, the
position resolver returns finite coordinates. -/
theorem getOrbitPosition_num (a e nu m11 m12 m13 m21 m22 m23 m31 m32 m33 : ℝ)
    (hden : 1 + e * Real.cos nu ≠ 0) :
    ∃ x y z : ℝ, getOrbitPosition (.num a) (.num e) (.num nu)
      (.num m11, .num m12, .num m13) (.num m21, .num m22, .num m23)
      (.num m31, .num m32, .num m33) = (.num x, .num y, .num z) := by
  simp only [getOrbitPosition, rowDot, jsCos, jsSin, jsMul, jsAdd, jsSub, jsDiv,
    if_neg hden]
  exact ⟨_, _, _, rfl⟩

/-- Claim C10: a raw record with finite required fields, positive semi-major
axis and eccentricity ≥ 1 passes validation (the clamp policy), yet both
body initialisers store the processed copy of the RAW record, discarding the
validator's sanitised copy: the stored eccentricity is the raw one (not
0.999), and later per-frame updates keep using it. -/
theorem init_stores_raw_eccentricity (raw : OrbitParams) (a0 e0 : ℝ) (points : ℕ)
    (ha : raw.a = .num a0) (hapos : 0 < a0) (he : raw.e = .num e0) (he1 : 1 ≤ e0)
    (hinc : isNum raw.inc = true) (hnode : isNum raw.node = true)
    (hperi : isNum raw.peri = true) :
    (validateOrbitParams (some raw)).isSome = true ∧
    (∀ name b, initializeNeoBody name raw points = some b →
        b.orbitParams.e = .num e0 ∧ b.orbitParams.e ≠ .num (999 / 1000)) ∧
    (∀ name b, initializePlanetBody name raw points = some b →
        b.orbitParams.e = .num e0) ∧
    (∀ name b mjd, initializeNeoBody name raw points = some b →
        (updateNeo mjd b).orbitParams.e = .num e0) := by
  obtain ⟨i0, hi0⟩ : ∃ x, raw.inc = JsVal.num x := by
    cases hh : raw.inc
    · exact ⟨_, rfl⟩
    · simp [isNum, hh] at hinc
  obtain ⟨n0, hn0⟩ : ∃ x, raw.node = JsVal.num x := by
    cases hh : raw.node
    · exact ⟨_, rfl⟩
    · simp [isNum, hh] at hnode
  obtain ⟨p0, hp0⟩ : ∃ x, raw.peri = JsVal.num x := by
    cases hh : raw.peri
    · exact ⟨_, rfl⟩
    · simp [isNum, hh] at hperi
  have hvalid : validateOrbitParams (some raw) =
      some { raw with e := .num (999 / 1000) } := by
    simp only [validateOrbitParams, ha, he, hi0, hn0, hp0]
    rw [if_neg (by linarith)]
    have hcond : e0 < 0 ∨ 1 ≤ e0 := Or.inr he1
    simp [hcond, he1]
  have hne : JsVal.num e0 ≠ JsVal.num (999 / 1000) := by
    simp only [ne_eq, JsVal.num.injEq]
    intro hcon
    linarith
  have hproc_e : (processRecord raw).e = raw.e := rfl
  have hneo : ∀ name b, initializeNeoBody name raw points = some b →
      b.orbitParams.e = .num e0 := by
    intro name b hb
    simp only [initializeNeoBody, hvalid] at hb
    cases hco : createOrbitSafe (some (processRecord raw)) points with
    | none => rw [hco] at hb; cases hb
    | some o =>
      rw [hco] at hb
      cases hb
      rw [show (Body.mk name (processRecord raw)
        (getOrbitPositionSafe (processRecord raw).a (processRecord raw).e (.num 0)
          (processRecord raw).transformMatrix)).orbitParams = processRecord raw from rfl,
        hproc_e, he]
  refine ⟨by rw [hvalid]; rfl, fun name b hb => ⟨hneo name b hb, ?_⟩, ?_, ?_⟩
  · rw [hneo name b hb]; exact hne
  · intro name b hb
    simp only [initializePlanetBody, hvalid] at hb
    cases hco : createOrbitSafe (some (processRecord raw)) points with
    | none => rw [hco] at hb; cases hb
    | some o =>
      rw [hco] at hb
      cases hb
      rw [show (Body.mk name (processRecord raw)
        (getOrbitPositionSafe (processRecord raw).a (processRecord raw).e (.num 0)
          (processRecord raw).transformMatrix)).orbitParams = processRecord raw from rfl,
        hproc_e, he]
  · intro name b mjd hb
    rw [updateNeo_preserves_e, hneo name b hb]

/-- Witness for C10 at eccentricity 3/2: validation passes, both
initialisers store eccentricity 3/2 (not the 0.999 the validator produced),
and a later frame update still sees 3/2. -/
theorem init_stores_raw_eccentricity_witness :
    (validateOrbitParams (some c10raw)).isSome = true ∧
    c10body.orbitParams.e = JsVal.num (3 / 2) ∧
    c10body.orbitParams.e ≠ JsVal.num (999 / 1000) ∧
    (updateNeo 0 c10body).orbitParams.e = JsVal.num (3 / 2) := by
  have hvalidR : validateOrbitParams (some c10raw) =
      some { c10raw with e := .num (999 / 1000) } := by
    norm_num [validateOrbitParams, c10raw]
  have hproc : processRecord c10raw = c10processed := by
    simp [processRecord, c10raw, c10processed, jsMul]
  have hvalidP : validateOrbitParams (some c10processed) = some c10clamped := by
    norm_num [validateOrbitParams, c10processed, c10clamped]
  have hrowsC : ensureTransformMatrix c10clamped =
      (goodOrbitRows, { c10clamped with transformMatrix := some goodOrbitRows }) := by
    rw [ensureTransformMatrix_eq c10clamped 0 0 0 rfl rfl rfl rfl, specTransformRows_zero]
  have hden : (1 : ℝ) + (999 / 1000) * Real.cos 0 ≠ 0 := by norm_num
  obtain ⟨x, y, z, hpos⟩ := getOrbitPosition_num 1 (999 / 1000) 0 1 0 0 0 1 0 0 0 1 hden
  have haC : c10clamped.a = JsVal.num 1 := rfl
  have heC : c10clamped.e = JsVal.num (999 / 1000) := rfl
  have hgeo : createOrbit c10clamped 1 =
      ([.num x, .num y, .num z], { c10clamped with transformMatrix := some goodOrbitRows }) := by
    simp only [createOrbit, hrowsC, goodOrbitRows, range_one_eq, List.map, List.flatten,
      haC, heC]
    simp [hpos]
  have hco : createOrbitSafe (some c10processed) 1 =
      some ([.num x, .num y, .num z],
        { c10clamped with transformMatrix := some goodOrbitRows }) := by
    simp only [createOrbitSafe, hvalidP, hgeo]
    simp [isNum]
  have hinitN : initializeNeoBody ("neo") c10raw 1 = some c10body := by
    simp only [initializeNeoBody, hvalidR, hproc, hco]
    rfl
  have hinitP : initializePlanetBody ("neo") c10raw 1 = some c10body := by
    simp only [initializePlanetBody, hvalidR, hproc, hco]
    rfl
  have h := init_stores_raw_eccentricity c10raw 1 (3 / 2) 1 rfl (by norm_num) rfl
    (by norm_num) rfl rfl rfl
  exact ⟨h.1, (h.2.1 _ _ hinitN).1, (h.2.1 _ _ hinitN).2, h.2.2.2 _ _ 0 hinitN⟩

end

end Orrery
